import Mathlib

/-
Verification of the BCSR sparse-matrix core in src/stk/matrix.py.

The embedding is shallow: torch tensors become a `Tensor` record carrying a
storage identity (`uid`, modelling the underlying buffer shared by torch view
and reshape operations), a shape, an element type, a device, and an optional
gradient buffer.  Numeric block contents never influence any of the code under
verification (the validator and the Matrix shape/transpose algebra inspect only
ranks, shapes, dtypes and devices), so contents are kept in a separate `Heap`
indexed by storage identity and are used only to state buffer-independence
facts about `clone`.

Python exceptions are modelled by `PyErr`, a pair of the Python exception
class (`ExcKind`) and a tag identifying the particular raise site (standing in
for the distinct message strings of the source).  Fallible operations return
`Except PyErr _`.
-/

namespace STK

/-- Element types that occur in the source: torch.float16 / float32 /
int16 / int32. -/
inductive DType where
  | float16
  | float32
  | int16
  | int32
deriving DecidableEq, Repr

/-- Compute device of a buffer: cpu or cuda. -/
inductive Device where
  | cpu
  | cuda
deriving DecidableEq, Repr

/-- Python exception classes raised by the source code paths we model. -/
inductive ExcKind where
  | valueError
  | typeError
  | assertionError
  | attributeError
  | indexError
  | zeroDivisionError
deriving DecidableEq, Repr

/-- Identifies the raise site; stands in for the distinct message string of
each raise in the source. -/
inductive CheckTag where
  | dataShapeIndexOOB
  | squareBlocks
  | rank3
  | shapeIndexOOB
  | divisibility
  | capacity
  | rowIndicesRank
  | columnIndicesRank
  | offsetsRank
  | rowIndicesCount
  | columnIndicesCount
  | offsetsCount
  | deviceMismatch
  | dataDtype
  | rowIndicesDtype
  | columnIndicesDtype
  | offsetsDtype
  | noneGrad
  | viewNotContiguous
  | viewCompressedDim
  | viewNumel
  | transposeDim
deriving DecidableEq, Repr

/-- A raised Python exception: its class and its raise site. -/
structure PyErr where
  kind : ExcKind
  tag : CheckTag
deriving DecidableEq, Repr

/-- A torch tensor: storage identity, shape, dtype, device and the optional
gradient buffer hanging off it.  View/reshape operations keep `uid` (they
alias the same storage). -/
inductive Tensor where
  | mk : Nat → List Nat → DType → Device → Option Tensor → Tensor

def Tensor.uid : Tensor → Nat
  | .mk u _ _ _ _ => u

def Tensor.shape : Tensor → List Nat
  | .mk _ s _ _ _ => s

def Tensor.dtype : Tensor → DType
  | .mk _ _ dt _ _ => dt

def Tensor.device : Tensor → Device
  | .mk _ _ _ dv _ => dv

def Tensor.grad : Tensor → Option Tensor
  | .mk _ _ _ _ g => g

/-- torch Tensor.dim(): the rank. -/
def Tensor.dim (t : Tensor) : Nat := t.shape.length

/-- torch Tensor.numel(): product of the dims. -/
def Tensor.numel (t : Tensor) : Nat := t.shape.prod

/-- torch Tensor.is_cuda. -/
def Tensor.is_cuda (t : Tensor) : Bool :=
  match t.device with
  | .cuda => true
  | .cpu => false

/-- Result of torch view/reshape: same storage (uid), same dtype, device and
gradient association, new shape metadata. -/
def Tensor.withShape : Tensor → List Nat → Tensor
  | .mk u _ dt dv g, s => .mk u s dt dv g

/-- torch Tensor.clone(): fresh storage (the caller supplies the fresh uid),
same metadata; the clone has no gradient of its own. -/
def Tensor.clone (t : Tensor) (u : Nat) : Tensor :=
  .mk u t.shape t.dtype t.device none

/-- The `is_cuda`/`is_cpu` consistency expression of _validate_matrix
(matrix.py lines 76-84). -/
def deviceConsistent (d r c o : Tensor) : Bool :=
  (d.is_cuda && r.is_cuda && c.is_cuda && o.is_cuda) ||
  (!d.is_cuda && !r.is_cuda && !c.is_cuda && !o.is_cuda)

/-- matrix.py lines 17-18: a rank-1 data input is reshaped to
[numel, 1, 1] before anything else. -/
def normalize1 (d : Tensor) : Tensor :=
  if d.dim = 1 then d.withShape [d.numel, 1, 1] else d

/-- matrix.py line 29: data.view([-1, block_size, block_size]); the -1
resolves to numel divided by the block area. -/
def flatten3 (d : Tensor) (bs : Nat) : Tensor :=
  d.withShape [d.numel / (bs * bs), bs, bs]

/-- matrix.py line 36: block_size = data.shape[1]. -/
def blockSize (d : Tensor) : Nat := (d.shape.get? 1).getD 0

/-- Python negative indexing l[-(i+1)]; guarded by an explicit length check
wherever Python would raise IndexError. -/
def atNeg (l : List Nat) (i : Nat) : Nat := (l.reverse.get? i).getD 0

/-- Checks of _validate_matrix from line 31 on, applied to the already
flattened rank-3 data.  shape[-2] and shape[-1] appear as atNeg shape 1 and
atNeg shape 0; a shape of fewer than 2 dims raises IndexError in Python at
line 37, and a block size of 0 raises ZeroDivisionError there.  block_rows
(line 70) is an exact integer division because divisibility of shape[-2] by
the block size was already enforced. -/
def validateRest (shape : List Nat) (data r c o : Tensor) : Except PyErr Tensor :=
  if data.dim ≠ 3 then .error ⟨.valueError, .rank3⟩
  else if shape.length < 2 then .error ⟨.indexError, .shapeIndexOOB⟩
  else if blockSize data = 0 then .error ⟨.zeroDivisionError, .divisibility⟩
  else if atNeg shape 1 % blockSize data ≠ 0 ∨ atNeg shape 0 % blockSize data ≠ 0 then
    .error ⟨.valueError, .divisibility⟩
  else if shape.prod < data.numel then .error ⟨.valueError, .capacity⟩
  else if r.dim ≠ 1 then .error ⟨.valueError, .rowIndicesRank⟩
  else if c.dim ≠ 1 then .error ⟨.valueError, .columnIndicesRank⟩
  else if o.dim ≠ 1 then .error ⟨.valueError, .offsetsRank⟩
  else if r.numel ≠ (data.shape.get? 0).getD 0 then .error ⟨.valueError, .rowIndicesCount⟩
  else if c.numel ≠ (data.shape.get? 0).getD 0 then .error ⟨.valueError, .columnIndicesCount⟩
  else if o.numel ≠ shape.dropLast.prod / blockSize data + 1 then
    .error ⟨.valueError, .offsetsCount⟩
  else if ¬ deviceConsistent data r c o then .error ⟨.valueError, .deviceMismatch⟩
  else if data.dtype ≠ .float16 then .error ⟨.valueError, .dataDtype⟩
  else if r.dtype ≠ .int16 then .error ⟨.valueError, .rowIndicesDtype⟩
  else if c.dtype ≠ .int16 then .error ⟨.valueError, .columnIndicesDtype⟩
  else if o.dtype ≠ .int32 then .error ⟨.valueError, .offsetsDtype⟩
  else .ok data

/-- matrix.py lines 15-103, _validate_matrix.  data.shape[-1] and
data.shape[-2] appear as atNeg of the (possibly rank-1-normalized) data
shape; fewer than 2 data dims raises IndexError in Python. -/
def _validate_matrix (shape : List Nat) (data r c o : Tensor) : Except PyErr Tensor :=
  if (normalize1 data).dim < 2 then .error ⟨.indexError, .dataShapeIndexOOB⟩
  else if atNeg (normalize1 data).shape 1 ≠ atNeg (normalize1 data).shape 0 then
    .error ⟨.valueError, .squareBlocks⟩
  else validateRest shape (flatten3 (normalize1 data) (atNeg (normalize1 data).shape 0)) r c o

/-- The Matrix entity of matrix.py: logical size, the four buffers, and the
lazy transpose flag. -/
structure Matrix where
  size : List Nat
  data : Tensor
  row_indices : Tensor
  column_indices : Tensor
  offsets : Tensor
  transposed : Bool

/-- Matrix.__init__ (lines 114-135): stores the arguments, runs the
validator when requested (replacing data by its normalized form), and sets
the transposed flag to False. -/
def Matrix.init (size : List Nat) (data r c o : Tensor) (validate : Bool) :
    Except PyErr Matrix :=
  if validate then
    match _validate_matrix size data r c o with
    | .error e => .error e
    | .ok d => .ok ⟨size, d, r, c, o, false⟩
  else
    .ok ⟨size, data, r, c, o, false⟩

def Matrix.dim (M : Matrix) : Nat := M.size.length

def Matrix.is_contiguous (M : Matrix) : Bool := !M.transposed

/-- Matrix.nnz (line 227): numel of the data buffer. -/
def Matrix.nnz (M : Matrix) : Nat := M.data.numel

/-- Matrix.blocking (line 231): data.shape[1] (the data buffer is rank 3
for every validated Matrix). -/
def Matrix.blocking (M : Matrix) : Nat := (M.data.shape.get? 1).getD 0

/-- Matrix.t (lines 168-180): rejects a logical shape of rank other than 2,
otherwise re-runs construction (with validation, using the current size and
buffers), then flips the transposed flag and reverses the 2-element size. -/
def Matrix.t (M : Matrix) : Except PyErr Matrix :=
  if M.dim ≠ 2 then .error ⟨.valueError, .transposeDim⟩
  else
    (Matrix.init M.size M.data M.row_indices M.column_indices M.offsets true).map
      fun out => { out with transposed := !M.transposed, size := M.size.reverse }

/-- Matrix.clone (lines 160-166): re-construct (with validation) from clones
of the four buffers; the four fresh storage uids are made explicit. -/
def Matrix.clone (M : Matrix) (u1 u2 u3 u4 : Nat) : Except PyErr Matrix :=
  Matrix.init M.size (M.data.clone u1) (M.row_indices.clone u2)
    (M.column_indices.clone u3) (M.offsets.clone u4) true

/-- Matrix.view (lines 242-256): asserts contiguity (AssertionError on a
transposed matrix), rejects a changed trailing dimension, rejects a changed
element count, then re-constructs over the same buffers with the new shape.
An empty shape tuple would raise IndexError at shape[-1] in Python. -/
def Matrix.view (M : Matrix) (shape : List Nat) : Except PyErr Matrix :=
  if M.is_contiguous = false then .error ⟨.assertionError, .viewNotContiguous⟩
  else if shape.length < 1 ∨ M.size.length < 1 then .error ⟨.indexError, .shapeIndexOOB⟩
  else if atNeg shape 0 ≠ atNeg M.size 0 then .error ⟨.valueError, .viewCompressedDim⟩
  else if shape.prod ≠ M.size.prod then .error ⟨.valueError, .viewNumel⟩
  else Matrix.init shape M.data M.row_indices M.column_indices M.offsets true

/-- Matrix.grad (lines 258-271): wraps data.grad in a Matrix of the
(un-reversed) size and re-applies t() when the source is transposed.  When
data.grad is None, Python reaches _validate_matrix(size, None, ...) whose
first step None.dim() raises AttributeError; the size reversal taken on a
transposed source reads size[1], size[0] of the 2-element size, i.e. the
reversed list. -/
def Matrix.grad (M : Matrix) : Except PyErr Matrix :=
  match M.data.grad with
  | none => .error ⟨.attributeError, .noneGrad⟩
  | some g =>
    match Matrix.init (if M.is_contiguous then M.size else M.size.reverse) g
        M.row_indices M.column_indices M.offsets true with
    | .error e => .error e
    | .ok out => if M.is_contiguous then .ok out else out.t

/-- Storage contents by storage identity; used only to express buffer
independence of clones. -/
def Heap : Type := Nat → List Int

/-- Mutating the buffer with storage identity u. -/
def Heap.write (h : Heap) (u : Nat) (v : List Int) : Heap :=
  fun x => if x = u then v else h x

/-- The conjunction of conditions under which _validate_matrix accepts an
already-normalized (rank-3, square-block) input unchanged; the conditions
mirror the checks of matrix.py lines 15-103 one for one. -/
def validChecks (shape : List Nat) (d r c o : Tensor) (n b : Nat) : Prop :=
  d.shape = [n, b, b] ∧ 0 < b ∧
  (2 ≤ shape.length ∧ atNeg shape 1 % b = 0 ∧ atNeg shape 0 % b = 0) ∧
  d.numel ≤ shape.prod ∧
  r.shape = [n] ∧ c.shape = [n] ∧
  o.shape = [shape.dropLast.prod / b + 1] ∧
  deviceConsistent d r c o = true ∧
  d.dtype = .float16 ∧ r.dtype = .int16 ∧ c.dtype = .int16 ∧ o.dtype = .int32

/-- The facts recorded by the checks of validateRest when it accepts. -/
structure RestFacts (shape : List Nat) (d r c o : Tensor) : Prop where
  dim3 : d.dim = 3
  slen : 2 ≤ shape.length
  bpos : 0 < blockSize d
  sdiv : atNeg shape 1 % blockSize d = 0 ∧ atNeg shape 0 % blockSize d = 0
  cap : ¬ shape.prod < d.numel
  rdim : r.dim = 1
  cdim : c.dim = 1
  odim : o.dim = 1
  rcount : r.numel = (d.shape.get? 0).getD 0
  ccount : c.numel = (d.shape.get? 0).getD 0
  ocount : o.numel = shape.dropLast.prod / blockSize d + 1
  dev : deviceConsistent d r c o = true
  ddt : d.dtype = .float16
  rdt : r.dtype = .int16
  cdt : c.dtype = .int16
  odt : o.dtype = .int32

/-
Concrete instances used as test vectors in witnesses and counterexamples.
-/

/-- A valid square 2x2 matrix with block size 1 and one nonzero block. -/
def exData : Tensor := .mk 0 [1, 1, 1] .float16 .cpu none

def exRow : Tensor := .mk 1 [1] .int16 .cpu none

def exCol : Tensor := .mk 2 [1] .int16 .cpu none

def exOff : Tensor := .mk 3 [3] .int32 .cpu none

def exSqM : Matrix := ⟨[2, 2], exData, exRow, exCol, exOff, false⟩

/-- The same square matrix, its data carrying a gradient buffer. -/
def gradT : Tensor := .mk 40 [1, 1, 1] .float16 .cpu none

def gData : Tensor := .mk 0 [1, 1, 1] .float16 .cpu (some gradT)

def exGradM : Matrix := ⟨[2, 2], gData, exRow, exCol, exOff, false⟩

/-- A valid rectangular 2x1 matrix with block size 1 and two nonzero
blocks (so three row offsets). -/
def rData : Tensor := .mk 10 [2, 1, 1] .float16 .cpu none

def rRow : Tensor := .mk 11 [2] .int16 .cpu none

def rCol : Tensor := .mk 12 [2] .int16 .cpu none

def rOff : Tensor := .mk 13 [3] .int32 .cpu none

def exRectM : Matrix := ⟨[2, 1], rData, rRow, rCol, rOff, false⟩

/-- A valid 8x8 matrix with block size 4 and one nonzero block. -/
def vData : Tensor := .mk 20 [1, 4, 4] .float16 .cpu none

def vRow : Tensor := .mk 21 [1] .int16 .cpu none

def vCol : Tensor := .mk 22 [1] .int16 .cpu none

def vOff : Tensor := .mk 23 [3] .int32 .cpu none

def exViewM : Matrix := ⟨[8, 8], vData, vRow, vCol, vOff, false⟩

/-- The valid square matrix with its transposed flag raised, as produced
by t. -/
def exSqMT : Matrix := ⟨[2, 2], exData, exRow, exCol, exOff, true⟩

/-- A rank-1 data buffer, for a matrix built with validation disabled. -/
def oData : Tensor := .mk 30 [4] .float16 .cpu none

/-- The capacity test vector of the spec: shape (128,128), block size 128,
two supplied blocks. -/
def capData : Tensor := .mk 50 [2, 128, 128] .float16 .cpu none

def capRow : Tensor := .mk 51 [2] .int16 .cpu none

def capCol : Tensor := .mk 52 [2] .int16 .cpu none

def capOff : Tensor := .mk 53 [2] .int32 .cpu none

/-- A rank-1 data buffer of 4 elements for a 2x2 shape at block size 1,
with its rank-3 normalized form, and matching index/offset buffers. -/
def c8data : Tensor := .mk 70 [4] .float16 .cpu none

def c8norm : Tensor := .mk 70 [4, 1, 1] .float16 .cpu none

def c8row : Tensor := .mk 71 [4] .int16 .cpu none

def c8col : Tensor := .mk 72 [4] .int16 .cpu none

def c8off : Tensor := .mk 73 [3] .int32 .cpu none

/-- Rejection vectors for each validator invariant: non-square blocks. -/
def e7aData : Tensor := .mk 60 [1, 2, 3] .float16 .cpu none

/-- Valid 1-block data of block size 2 (shape not divisible when paired
with a 3x3 logical shape). -/
def e7bData : Tensor := .mk 61 [1, 2, 2] .float16 .cpu none

/-- Five row indices for one block: length mismatch. -/
def e7cRow : Tensor := .mk 62 [5] .int16 .cpu none

/-- Seven offsets where two are expected. -/
def e7dOff : Tensor := .mk 63 [7] .int32 .cpu none

def e7Row1 : Tensor := .mk 64 [1] .int16 .cpu none

/-- Row indices on cuda while the other buffers live on cpu. -/
def e7eRowCuda : Tensor := .mk 65 [1] .int16 .cuda none

def e7Off2 : Tensor := .mk 66 [2] .int32 .cpu none

/-- Row indices with the wrong element type (int32 instead of int16). -/
def e7fRow32 : Tensor := .mk 67 [1] .int32 .cpu none

end STK

namespace STK

theorem Tensor.uid_mk (u : Nat) (s : List Nat) (dt : DType) (dv : Device)
    (g : Option Tensor) : (Tensor.mk u s dt dv g).uid = u := rfl

theorem Tensor.shape_mk (u : Nat) (s : List Nat) (dt : DType) (dv : Device)
    (g : Option Tensor) : (Tensor.mk u s dt dv g).shape = s := rfl

theorem Tensor.withShape_shape (t : Tensor) (s : List Nat) :
    (t.withShape s).shape = s := by cases t; rfl

theorem Tensor.withShape_uid (t : Tensor) (s : List Nat) :
    (t.withShape s).uid = t.uid := by cases t; rfl

theorem Tensor.withShape_dtype (t : Tensor) (s : List Nat) :
    (t.withShape s).dtype = t.dtype := by cases t; rfl

theorem Tensor.withShape_device (t : Tensor) (s : List Nat) :
    (t.withShape s).device = t.device := by cases t; rfl

theorem Tensor.withShape_grad (t : Tensor) (s : List Nat) :
    (t.withShape s).grad = t.grad := by cases t; rfl

theorem Tensor.withShape_self (t : Tensor) : t.withShape t.shape = t := by
  cases t; rfl

theorem Tensor.withShape_is_cuda (t : Tensor) (s : List Nat) :
    (t.withShape s).is_cuda = t.is_cuda := by
  unfold Tensor.is_cuda; rw [Tensor.withShape_device]

theorem normalize1_uid (d : Tensor) : (normalize1 d).uid = d.uid := by
  unfold normalize1; split <;> simp [Tensor.withShape_uid]

theorem normalize1_dtype (d : Tensor) : (normalize1 d).dtype = d.dtype := by
  unfold normalize1; split <;> simp [Tensor.withShape_dtype]

theorem normalize1_device (d : Tensor) : (normalize1 d).device = d.device := by
  unfold normalize1; split <;> simp [Tensor.withShape_device]

theorem normalize1_grad (d : Tensor) : (normalize1 d).grad = d.grad := by
  unfold normalize1; split <;> simp [Tensor.withShape_grad]

theorem normalize1_numel (d : Tensor) : (normalize1 d).numel = d.numel := by
  unfold normalize1; split
  · simp [Tensor.numel, Tensor.withShape_shape]
  · rfl

theorem normalize1_is_cuda (d : Tensor) : (normalize1 d).is_cuda = d.is_cuda := by
  unfold Tensor.is_cuda; rw [normalize1_device]

theorem flatten3_shape (d : Tensor) (bs : Nat) :
    (flatten3 d bs).shape = [d.numel / (bs * bs), bs, bs] := by
  unfold flatten3; rw [Tensor.withShape_shape]

theorem flatten3_uid (d : Tensor) (bs : Nat) : (flatten3 d bs).uid = d.uid := by
  unfold flatten3; rw [Tensor.withShape_uid]

theorem flatten3_dtype (d : Tensor) (bs : Nat) :
    (flatten3 d bs).dtype = d.dtype := by
  unfold flatten3; rw [Tensor.withShape_dtype]

theorem flatten3_device (d : Tensor) (bs : Nat) :
    (flatten3 d bs).device = d.device := by
  unfold flatten3; rw [Tensor.withShape_device]

theorem flatten3_grad (d : Tensor) (bs : Nat) :
    (flatten3 d bs).grad = d.grad := by
  unfold flatten3; rw [Tensor.withShape_grad]

theorem flatten3_dim (d : Tensor) (bs : Nat) : (flatten3 d bs).dim = 3 := by
  unfold Tensor.dim; rw [flatten3_shape]; rfl

theorem blockSize_flatten3 (d : Tensor) (bs : Nat) :
    blockSize (flatten3 d bs) = bs := by
  unfold blockSize; rw [flatten3_shape]; rfl

theorem flatten3_numel_of_rev {nd : Tensor} {b : Nat} {rest : List Nat}
    (hrev : nd.shape.reverse = b :: b :: rest) (hb : 0 < b) :
    (flatten3 nd b).shape = [rest.prod, b, b] ∧ (flatten3 nd b).numel = nd.numel := by
  have hn : nd.numel = b * b * rest.prod := by
    have h1 := congrArg List.prod hrev
    rw [List.prod_reverse] at h1
    unfold Tensor.numel
    rw [h1, List.prod_cons, List.prod_cons]
    ring
  have hq : nd.numel / (b * b) = rest.prod := by
    rw [hn, Nat.mul_div_cancel_left _ (Nat.mul_pos hb hb)]
  constructor
  · rw [flatten3_shape, hq]
  · have h2 : (flatten3 nd b).numel = rest.prod * (b * (b * 1)) := by
      unfold Tensor.numel
      rw [flatten3_shape, hq]
      rfl
    rw [h2, hn]
    ring

theorem flatten3_numel_le (t : Tensor) (bs : Nat) :
    (flatten3 t bs).numel ≤ t.numel := by
  have h1 : (flatten3 t bs).numel = t.numel / (bs * bs) * (bs * (bs * 1)) := by
    unfold Tensor.numel
    rw [flatten3_shape]
    rfl
  have h2 : t.numel / (bs * bs) * (bs * (bs * 1)) = t.numel / (bs * bs) * (bs * bs) := by
    ring
  rw [h1, h2]
  exact Nat.div_mul_le_self _ _

theorem atNeg_zero_of_rev {l : List Nat} {a : Nat} {tl : List Nat}
    (h : l.reverse = a :: tl) : atNeg l 0 = a := by
  unfold atNeg; rw [h]; rfl

theorem atNeg_one_of_rev {l : List Nat} {a b : Nat} {tl : List Nat}
    (h : l.reverse = a :: b :: tl) : atNeg l 1 = b := by
  unfold atNeg; rw [h]; rfl

theorem exists_rev_two (l : List Nat) (h : 2 ≤ l.length) :
    ∃ a b rest, l.reverse = a :: b :: rest ∧ atNeg l 0 = a ∧ atNeg l 1 = b := by
  have hl : l.reverse.length = l.length := List.length_reverse l
  rcases hr : l.reverse with _ | ⟨a, tl⟩
  · rw [hr] at hl; simp at hl; omega
  · rcases tl with _ | ⟨b, rest⟩
    · rw [hr] at hl; simp at hl; omega
    · exact ⟨a, b, rest, rfl, atNeg_zero_of_rev hr, atNeg_one_of_rev hr⟩

theorem validateRest_ok {shape : List Nat} {d r c o d' : Tensor}
    (h : validateRest shape d r c o = .ok d') :
    d' = d ∧ RestFacts shape d r c o := by
  unfold validateRest at h
  by_cases h1 : d.dim ≠ 3
  · rw [if_pos h1] at h; cases h
  rw [if_neg h1] at h
  by_cases h2 : shape.length < 2
  · rw [if_pos h2] at h; cases h
  rw [if_neg h2] at h
  by_cases h3 : blockSize d = 0
  · rw [if_pos h3] at h; cases h
  rw [if_neg h3] at h
  by_cases h4 : atNeg shape 1 % blockSize d ≠ 0 ∨ atNeg shape 0 % blockSize d ≠ 0
  · rw [if_pos h4] at h; cases h
  rw [if_neg h4] at h
  by_cases h5 : shape.prod < d.numel
  · rw [if_pos h5] at h; cases h
  rw [if_neg h5] at h
  by_cases h6 : r.dim ≠ 1
  · rw [if_pos h6] at h; cases h
  rw [if_neg h6] at h
  by_cases h7 : c.dim ≠ 1
  · rw [if_pos h7] at h; cases h
  rw [if_neg h7] at h
  by_cases h8 : o.dim ≠ 1
  · rw [if_pos h8] at h; cases h
  rw [if_neg h8] at h
  by_cases h9 : r.numel ≠ (d.shape.get? 0).getD 0
  · rw [if_pos h9] at h; cases h
  rw [if_neg h9] at h
  by_cases h10 : c.numel ≠ (d.shape.get? 0).getD 0
  · rw [if_pos h10] at h; cases h
  rw [if_neg h10] at h
  by_cases h11 : o.numel ≠ shape.dropLast.prod / blockSize d + 1
  · rw [if_pos h11] at h; cases h
  rw [if_neg h11] at h
  by_cases h12 : ¬ (deviceConsistent d r c o = true)
  · rw [if_pos h12] at h; cases h
  rw [if_neg h12] at h
  by_cases h13 : d.dtype ≠ DType.float16
  · rw [if_pos h13] at h; cases h
  rw [if_neg h13] at h
  by_cases h14 : r.dtype ≠ DType.int16
  · rw [if_pos h14] at h; cases h
  rw [if_neg h14] at h
  by_cases h15 : c.dtype ≠ DType.int16
  · rw [if_pos h15] at h; cases h
  rw [if_neg h15] at h
  by_cases h16 : o.dtype ≠ DType.int32
  · rw [if_pos h16] at h; cases h
  rw [if_neg h16] at h
  cases h
  push_neg at h4
  exact ⟨rfl,
    { dim3 := not_ne_iff.mp h1, slen := Nat.le_of_not_lt h2,
      bpos := Nat.pos_of_ne_zero h3, sdiv := h4, cap := h5,
      rdim := not_ne_iff.mp h6, cdim := not_ne_iff.mp h7,
      odim := not_ne_iff.mp h8, rcount := not_ne_iff.mp h9,
      ccount := not_ne_iff.mp h10, ocount := not_ne_iff.mp h11,
      dev := not_not.mp h12, ddt := not_ne_iff.mp h13,
      rdt := not_ne_iff.mp h14, cdt := not_ne_iff.mp h15,
      odt := not_ne_iff.mp h16 }⟩

theorem validateRest_capacity_err {shape : List Nat} {d r c o : Tensor}
    (h : validateRest shape d r c o = .error ⟨.valueError, .capacity⟩) :
    shape.prod < d.numel := by
  unfold validateRest at h
  by_cases h1 : d.dim ≠ 3
  · rw [if_pos h1] at h; cases h
  rw [if_neg h1] at h
  by_cases h2 : shape.length < 2
  · rw [if_pos h2] at h; cases h
  rw [if_neg h2] at h
  by_cases h3 : blockSize d = 0
  · rw [if_pos h3] at h; cases h
  rw [if_neg h3] at h
  by_cases h4 : atNeg shape 1 % blockSize d ≠ 0 ∨ atNeg shape 0 % blockSize d ≠ 0
  · rw [if_pos h4] at h; cases h
  rw [if_neg h4] at h
  by_cases h5 : shape.prod < d.numel
  · rw [if_pos h5] at h; exact h5
  rw [if_neg h5] at h
  by_cases h6 : r.dim ≠ 1
  · rw [if_pos h6] at h; cases h
  rw [if_neg h6] at h
  by_cases h7 : c.dim ≠ 1
  · rw [if_pos h7] at h; cases h
  rw [if_neg h7] at h
  by_cases h8 : o.dim ≠ 1
  · rw [if_pos h8] at h; cases h
  rw [if_neg h8] at h
  by_cases h9 : r.numel ≠ (d.shape.get? 0).getD 0
  · rw [if_pos h9] at h; cases h
  rw [if_neg h9] at h
  by_cases h10 : c.numel ≠ (d.shape.get? 0).getD 0
  · rw [if_pos h10] at h; cases h
  rw [if_neg h10] at h
  by_cases h11 : o.numel ≠ shape.dropLast.prod / blockSize d + 1
  · rw [if_pos h11] at h; cases h
  rw [if_neg h11] at h
  by_cases h12 : ¬ (deviceConsistent d r c o = true)
  · rw [if_pos h12] at h; cases h
  rw [if_neg h12] at h
  by_cases h13 : d.dtype ≠ DType.float16
  · rw [if_pos h13] at h; cases h
  rw [if_neg h13] at h
  by_cases h14 : r.dtype ≠ DType.int16
  · rw [if_pos h14] at h; cases h
  rw [if_neg h14] at h
  by_cases h15 : c.dtype ≠ DType.int16
  · rw [if_pos h15] at h; cases h
  rw [if_neg h15] at h
  by_cases h16 : o.dtype ≠ DType.int32
  · rw [if_pos h16] at h; cases h
  rw [if_neg h16] at h
  cases h

theorem validate_ok_elim {shape : List Nat} {d r c o d' : Tensor}
    (h : _validate_matrix shape d r c o = .ok d') :
    ∃ b rest, (normalize1 d).shape.reverse = b :: b :: rest ∧
      d' = flatten3 (normalize1 d) b ∧
      RestFacts shape (flatten3 (normalize1 d) b) r c o := by
  unfold _validate_matrix at h
  by_cases h1 : (normalize1 d).dim < 2
  · rw [if_pos h1] at h; cases h
  rw [if_neg h1] at h
  by_cases h2 : atNeg (normalize1 d).shape 1 ≠ atNeg (normalize1 d).shape 0
  · rw [if_pos h2] at h; cases h
  rw [if_neg h2] at h
  · obtain ⟨a, b, rest, hrev, h0, h1x⟩ :=
      exists_rev_two (normalize1 d).shape (Nat.le_of_not_lt h1)
    have hba : b = a := by rw [← h1x, ← h0, not_ne_iff.mp h2]
    rw [hba] at hrev
    obtain ⟨hd', hf⟩ := validateRest_ok h
    rw [h0] at hd' hf
    exact ⟨a, rest, hrev, hd', hf⟩

theorem validate_ok_capacity {shape : List Nat} {d r c o d' : Tensor}
    (h : _validate_matrix shape d r c o = .ok d') :
    ¬ shape.prod < d.numel := by
  obtain ⟨b, rest, hrev, hd', hf⟩ := validate_ok_elim h
  have hb : 0 < b := by
    have hp := hf.bpos
    rwa [blockSize_flatten3] at hp
  have hnum := (flatten3_numel_of_rev hrev hb).2
  have hcap := hf.cap
  rw [hnum, normalize1_numel] at hcap
  exact hcap

theorem validate_capacity_err {shape : List Nat} {d r c o : Tensor}
    (h : _validate_matrix shape d r c o = .error ⟨.valueError, .capacity⟩) :
    shape.prod < d.numel := by
  unfold _validate_matrix at h
  by_cases h1 : (normalize1 d).dim < 2
  · rw [if_pos h1] at h; cases h
  rw [if_neg h1] at h
  by_cases h2 : atNeg (normalize1 d).shape 1 ≠ atNeg (normalize1 d).shape 0
  · rw [if_pos h2] at h; cases h
  rw [if_neg h2] at h
  · have hlt := validateRest_capacity_err h
    calc shape.prod
        < (flatten3 (normalize1 d) (atNeg (normalize1 d).shape 0)).numel := hlt
      _ ≤ (normalize1 d).numel := flatten3_numel_le _ _
      _ = d.numel := normalize1_numel d

theorem validate_ok_of {shape : List Nat} {d r c o : Tensor} {n b : Nat}
    (hc : validChecks shape d r c o n b) :
    _validate_matrix shape d r c o = .ok d := by
  obtain ⟨hshape, hb, ⟨hlen, hdiv2, hdiv1⟩, hcap, hr, hcn, ho, hdev, hdt,
    hrt, hct, hot⟩ := hc
  have hdim3 : d.dim = 3 := by unfold Tensor.dim; rw [hshape]; rfl
  have hnd : normalize1 d = d := by
    unfold normalize1
    rw [if_neg (by simp [hdim3])]
  have hrevd : d.shape.reverse = [b, b, n] := by rw [hshape]; rfl
  have ha0 : atNeg d.shape 0 = b := atNeg_zero_of_rev hrevd
  have ha1 : atNeg d.shape 1 = b := atNeg_one_of_rev hrevd
  have hnumel : d.numel = n * (b * (b * 1)) := by
    unfold Tensor.numel; rw [hshape]; rfl
  have hq : d.numel / (b * b) = n := by
    rw [hnumel, show n * (b * (b * 1)) = n * (b * b) from by ring,
      Nat.mul_div_cancel _ (Nat.mul_pos hb hb)]
  have hfl : flatten3 d b = d := by
    unfold flatten3
    rw [hq, ← hshape, Tensor.withShape_self]
  have hbs : blockSize d = b := by unfold blockSize; rw [hshape]; rfl
  have hrdim : r.dim = 1 := by unfold Tensor.dim; rw [hr]; rfl
  have hcdim : c.dim = 1 := by unfold Tensor.dim; rw [hcn]; rfl
  have hodim : o.dim = 1 := by unfold Tensor.dim; rw [ho]; rfl
  have hrnum : r.numel = n := by unfold Tensor.numel; rw [hr]; simp
  have hcnum : c.numel = n := by unfold Tensor.numel; rw [hcn]; simp
  have honum : o.numel = shape.dropLast.prod / b + 1 := by
    unfold Tensor.numel; rw [ho]; simp
  have hd0 : (d.shape.get? 0).getD 0 = n := by rw [hshape]; rfl
  unfold _validate_matrix
  rw [hnd, ha1, ha0, hfl]
  rw [if_neg (by simp [hdim3]), if_neg (by simp)]
  unfold validateRest
  rw [hbs]
  rw [if_neg (by simp [hdim3]), if_neg (by omega), if_neg (by omega),
    if_neg (by simp [hdiv1, hdiv2]), if_neg (Nat.not_lt.mpr hcap),
    if_neg (by simp [hrdim]), if_neg (by simp [hcdim]), if_neg (by simp [hodim]),
    if_neg (by simp only [hrnum, hd0]; simp), if_neg (by simp only [hcnum, hd0]; simp),
    if_neg (by simp [honum]), if_neg (by simp [hdev]),
    if_neg (by simp [hdt]), if_neg (by simp [hrt]), if_neg (by simp [hct]),
    if_neg (by simp [hot])]

theorem init_ok_of {size : List Nat} {d r c o : Tensor} {n b : Nat}
    (hc : validChecks size d r c o n b) :
    Matrix.init size d r c o true = .ok ⟨size, d, r, c, o, false⟩ := by
  unfold Matrix.init
  rw [if_pos rfl, validate_ok_of hc]

theorem init_ok_elim {size : List Nat} {d r c o : Tensor} {v : Bool} {M : Matrix}
    (h : Matrix.init size d r c o v = .ok M) :
    M.size = size ∧ M.row_indices = r ∧ M.column_indices = c ∧ M.offsets = o ∧
      M.transposed = false ∧
      (v = true → _validate_matrix size d r c o = .ok M.data) ∧
      (v = false → M.data = d) := by
  unfold Matrix.init at h
  cases v
  · rw [if_neg (by simp)] at h
    cases h
    exact ⟨rfl, rfl, rfl, rfl, rfl, by simp, fun _ => rfl⟩
  · rw [if_pos rfl] at h
    cases hv : _validate_matrix size d r c o with
    | error e => rw [hv] at h; cases h
    | ok dd =>
      rw [hv] at h
      cases h
      exact ⟨rfl, rfl, rfl, rfl, rfl, fun _ => rfl, by simp⟩

theorem init_transposed {size : List Nat} {d r c o : Tensor} {v : Bool}
    {M : Matrix} (h : Matrix.init size d r c o v = .ok M) :
    M.transposed = false :=
  (init_ok_elim h).2.2.2.2.1

theorem t_ok_of {M : Matrix} {n b : Nat} (hdim : M.dim = 2)
    (hc : validChecks M.size M.data M.row_indices M.column_indices M.offsets n b) :
    M.t = .ok ⟨M.size.reverse, M.data, M.row_indices, M.column_indices,
      M.offsets, !M.transposed⟩ := by
  unfold Matrix.t
  rw [if_neg (by simp [hdim]), init_ok_of hc]
  rfl

theorem t_transposed {M M2 : Matrix} (h : M.t = .ok M2) :
    M2.transposed = !M.transposed := by
  unfold Matrix.t at h
  by_cases k : M.dim ≠ 2
  · rw [if_pos k] at h; cases h
  rw [if_neg k] at h
  cases hi : Matrix.init M.size M.data M.row_indices M.column_indices M.offsets true with
  | error e => rw [hi] at h; cases h
  | ok out => rw [hi] at h; cases h; rfl

theorem validChecks_clone {size : List Nat} {d r c o : Tensor}
    {n b u1 u2 u3 u4 : Nat} (hc : validChecks size d r c o n b) :
    validChecks size (d.clone u1) (r.clone u2) (c.clone u3) (o.clone u4) n b := hc

/-
Claim theorems.
-/

/-- C1 (amended): transpose involution holds for square matrices.  For every
validated Matrix whose logical shape is square ([a, a]) and whose data buffer
is in the normalized rank-3 form, t applied twice returns exactly the original
Matrix: same logical shape, same transposed flag, and the very same data,
row-index, column-index and offsets buffers. -/
theorem C1_transpose_involution {M : Matrix} {a n b : Nat}
    (hsq : M.size = [a, a])
    (hc : validChecks M.size M.data M.row_indices M.column_indices M.offsets n b) :
    M.t.bind Matrix.t = .ok M := by
  obtain ⟨ms, md, mr, mc, mo, mt⟩ := M
  replace hsq : ms = [a, a] := hsq
  subst hsq
  replace hc : validChecks [a, a] md mr mc mo n b := hc
  rw [@t_ok_of ⟨[a, a], md, mr, mc, mo, mt⟩ n b rfl hc]
  show Matrix.t ⟨[a, a], md, mr, mc, mo, !mt⟩ = .ok ⟨[a, a], md, mr, mc, mo, mt⟩
  rw [@t_ok_of ⟨[a, a], md, mr, mc, mo, !mt⟩ n b rfl hc]
  show (Except.ok ⟨[a, a], md, mr, mc, mo, !!mt⟩ : Except PyErr Matrix) =
    .ok ⟨[a, a], md, mr, mc, mo, mt⟩
  rw [Bool.not_not]

/-- C1 witness: the involution evaluated on a concrete valid 2x2 matrix. -/
theorem C1_witness :
    validChecks [2, 2] exData exRow exCol exOff 1 1 ∧
      exSqM.t.bind Matrix.t = .ok exSqM := by
  have hc : validChecks [2, 2] exData exRow exCol exOff 1 1 :=
    ⟨rfl, by decide, by decide, by decide, rfl, rfl, rfl, rfl, rfl, rfl, rfl, rfl⟩
  exact ⟨hc, C1_transpose_involution rfl hc⟩

/-- C1 counterexample: on the valid non-square 2x1 matrix the second
transpose raises (the re-validation inside t checks the offsets length
against the already-reversed logical shape), so the involution fails for
non-square shapes. -/
theorem C1_counterexample :
    exRectM.t.bind Matrix.t = .error ⟨.valueError, .offsetsCount⟩ := rfl

/-- C2 (amended): clone deep-copies the four buffers (fresh storage ids,
same shape, dtype and device) and always resets the transposed flag to
False; writes through any of the clone storage ids never alter a buffer
with a different storage id, so mutating the clone leaves the source
unchanged whenever the fresh ids differ from the source ids. -/
theorem C2_clone_deep_copy {M : Matrix} {n b : Nat} (u1 u2 u3 u4 : Nat)
    (hc : validChecks M.size M.data M.row_indices M.column_indices M.offsets n b) :
    M.clone u1 u2 u3 u4 = .ok ⟨M.size, M.data.clone u1, M.row_indices.clone u2,
        M.column_indices.clone u3, M.offsets.clone u4, false⟩ ∧
    (M.data.clone u1).shape = M.data.shape ∧
    (M.data.clone u1).dtype = M.data.dtype ∧
    (M.data.clone u1).device = M.data.device ∧
    (M.data.clone u1).uid = u1 ∧ (M.row_indices.clone u2).uid = u2 ∧
    (M.column_indices.clone u3).uid = u3 ∧ (M.offsets.clone u4).uid = u4 ∧
    (∀ (h : Heap) (v : List Int) (u u0 : Nat),
      u ∈ [u1, u2, u3, u4] →
      u0 ∈ [M.data.uid, M.row_indices.uid, M.column_indices.uid, M.offsets.uid] →
      u ∉ [M.data.uid, M.row_indices.uid, M.column_indices.uid, M.offsets.uid] →
      Heap.write h u v u0 = h u0) := by
  refine ⟨?_, rfl, rfl, rfl, rfl, rfl, rfl, rfl, ?_⟩
  · unfold Matrix.clone
    rw [init_ok_of (validChecks_clone hc)]
  · intro h v u u0 hu hu0 hnotin
    unfold Heap.write
    have hne : ¬ (u0 = u) := fun he => hnotin (he ▸ hu0)
    rw [if_neg hne]

/-- C2 witness: clone evaluated on the concrete valid 2x2 matrix. -/
theorem C2_witness :
    validChecks [2, 2] exData exRow exCol exOff 1 1 ∧
    exSqM.clone 100 101 102 103 = .ok ⟨[2, 2], exData.clone 100, exRow.clone 101,
      exCol.clone 102, exOff.clone 103, false⟩ ∧
    (exData.clone 100).uid = 100 := by
  have hc : validChecks [2, 2] exData exRow exCol exOff 1 1 :=
    ⟨rfl, by decide, by decide, by decide, rfl, rfl, rfl, rfl, rfl, rfl, rfl, rfl⟩
  exact ⟨hc, (@C2_clone_deep_copy exSqM 1 1 100 101 102 103 hc).1,
    (@C2_clone_deep_copy exSqM 1 1 100 101 102 103 hc).2.2.2.2.1⟩

/-- C2 counterexample: cloning a transposed Matrix yields a Matrix whose
transposed flag is False while the source flag is True, so clone does not
preserve the orientation of a transposed source. -/
theorem C2_counterexample :
    exSqM.t.map Matrix.transposed = .ok true ∧
    (exSqM.t.bind fun m => m.clone 100 101 102 103).map Matrix.transposed =
      .ok false := ⟨rfl, rfl⟩

/-- C4 (amended): t raises the ValueError of its dimensionality guard
exactly when the logical shape rank differs from 2 (also for rank below 2,
e.g. matrices built with validation disabled); for a rank-2 Matrix whose
current fields pass the constructor re-validation, t succeeds and returns a
Matrix over the very same buffers with the flag flipped and the shape
reversed. -/
theorem C4_transpose_dim :
    (∀ M : Matrix, M.dim ≠ 2 → M.t = .error ⟨.valueError, .transposeDim⟩) ∧
    (∀ (M : Matrix) (n b : Nat), M.dim = 2 →
      validChecks M.size M.data M.row_indices M.column_indices M.offsets n b →
      M.t = .ok ⟨M.size.reverse, M.data, M.row_indices, M.column_indices,
        M.offsets, !M.transposed⟩) := by
  constructor
  · intro M h
    unfold Matrix.t
    rw [if_pos h]
  · intro M n b hdim hc
    exact t_ok_of hdim hc

/-- C4 witness: the dimensionality guard fires on a 1-D matrix and t
succeeds on the concrete valid 2x2 matrix. -/
theorem C4_witness :
    ((⟨[4], oData, exRow, exCol, exOff, false⟩ : Matrix).dim ≠ 2 ∧
      (⟨[4], oData, exRow, exCol, exOff, false⟩ : Matrix).t =
        .error ⟨.valueError, .transposeDim⟩) ∧
    (exSqM.dim = 2 ∧
      exSqM.t = .ok ⟨[2, 2], exData, exRow, exCol, exOff, true⟩) := by
  have hc : validChecks [2, 2] exData exRow exCol exOff 1 1 :=
    ⟨rfl, by decide, by decide, by decide, rfl, rfl, rfl, rfl, rfl, rfl, rfl, rfl⟩
  exact ⟨⟨by decide, C4_transpose_dim.1 _ (by decide)⟩,
    ⟨rfl, C4_transpose_dim.2 exSqM 1 1 rfl hc⟩⟩

/-- C4 counterexample: a 1-dimensional Matrix (constructible with
validation disabled) has at most 2 dimensions, yet t raises the
dimensionality error, refuting that the failure happens exactly for more
than 2 dimensions. -/
theorem C4_counterexample :
    (Matrix.init [4] oData exRow exCol exOff false).bind Matrix.t =
      .error ⟨.valueError, .transposeDim⟩ := rfl

/-- C3 (amended): when a gradient buffer is associated with the data tensor,
grad wraps it in a Matrix with the same logical shape as the source, the
same index and offset buffers, and the source transpose re-applied; when no
gradient buffer exists, grad raises (an AttributeError out of validating a
None data argument) instead of reporting absence. -/
theorem C3_grad {M : Matrix} {g : Tensor} {n b : Nat}
    (hg : M.data.grad = some g)
    (hc : validChecks (if M.is_contiguous then M.size else M.size.reverse) g
      M.row_indices M.column_indices M.offsets n b)
    (hlen : M.transposed = true → M.size.length = 2) :
    M.grad = .ok ⟨M.size, g, M.row_indices, M.column_indices, M.offsets,
      M.transposed⟩ := by
  unfold Matrix.grad
  rw [hg]
  show (match Matrix.init (if M.is_contiguous then M.size else M.size.reverse) g
      M.row_indices M.column_indices M.offsets true with
    | .error e => (.error e : Except PyErr Matrix)
    | .ok out => if M.is_contiguous then .ok out else out.t) =
    .ok ⟨M.size, g, M.row_indices, M.column_indices, M.offsets, M.transposed⟩
  rw [init_ok_of hc]
  show (if M.is_contiguous then
      (.ok (⟨if M.is_contiguous then M.size else M.size.reverse, g, M.row_indices,
        M.column_indices, M.offsets, false⟩ : Matrix) : Except PyErr Matrix)
    else
      Matrix.t ⟨if M.is_contiguous then M.size else M.size.reverse, g,
        M.row_indices, M.column_indices, M.offsets, false⟩) =
    .ok ⟨M.size, g, M.row_indices, M.column_indices, M.offsets, M.transposed⟩
  cases hmt : M.transposed with
  | false =>
    have hcont : M.is_contiguous = true := by
      unfold Matrix.is_contiguous; rw [hmt]; rfl
    rw [hcont, if_pos rfl, if_pos rfl]
  | true =>
    have hcont : M.is_contiguous = false := by
      unfold Matrix.is_contiguous; rw [hmt]; rfl
    rw [hcont, if_neg (by simp), if_neg (by simp)]
    have hc2 : validChecks M.size.reverse g M.row_indices M.column_indices
        M.offsets n b := by
      rw [hcont] at hc
      rw [if_neg (by simp)] at hc
      exact hc
    have hd : (⟨M.size.reverse, g, M.row_indices, M.column_indices, M.offsets,
        false⟩ : Matrix).dim = 2 := by
      show M.size.reverse.length = 2
      rw [List.length_reverse]
      exact hlen hmt
    rw [@t_ok_of ⟨M.size.reverse, g, M.row_indices, M.column_indices, M.offsets,
      false⟩ n b hd hc2]
    show (Except.ok (⟨M.size.reverse.reverse, g, M.row_indices, M.column_indices,
      M.offsets, !false⟩ : Matrix) : Except PyErr Matrix) = _
    rw [List.reverse_reverse]
    rfl

/-- C3 witness: grad on a concrete matrix carrying a gradient buffer. -/
theorem C3_witness :
    gData.grad = some gradT ∧
    exGradM.grad = .ok ⟨[2, 2], gradT, exRow, exCol, exOff, false⟩ := by
  have hc : validChecks [2, 2] gradT exRow exCol exOff 1 1 :=
    ⟨rfl, by decide, by decide, by decide, rfl, rfl, rfl, rfl, rfl, rfl, rfl, rfl⟩
  exact ⟨rfl, C3_grad rfl hc (by intro h; cases h)⟩

/-- C3 counterexample: on a Matrix whose data has no gradient buffer the
accessor raises (AttributeError inside validation of the None buffer)
rather than reporting absence without an error. -/
theorem C3_counterexample :
    exSqM.data.grad = none ∧
    exSqM.grad = .error ⟨.attributeError, .noneGrad⟩ := ⟨rfl, rfl⟩

/-- C5 (amended): view on a transposed matrix fails the contiguity
assertion; a changed trailing dimension or a changed element count fails
with the corresponding ValueError; when those checks pass, view
re-validates the new shape over the same buffers and returns the reshaped
Matrix only when that validation also passes (it can fail, e.g. when the
second-to-last dimension of the new shape is not divisible by the block
size). -/
theorem C5_view :
    (∀ (M : Matrix) (s : List Nat), M.transposed = true →
      M.view s = .error ⟨.assertionError, .viewNotContiguous⟩) ∧
    (∀ (M : Matrix) (s : List Nat), M.transposed = false →
      ¬ (s.length < 1 ∨ M.size.length < 1) → atNeg s 0 ≠ atNeg M.size 0 →
      M.view s = .error ⟨.valueError, .viewCompressedDim⟩) ∧
    (∀ (M : Matrix) (s : List Nat), M.transposed = false →
      ¬ (s.length < 1 ∨ M.size.length < 1) → atNeg s 0 = atNeg M.size 0 →
      s.prod ≠ M.size.prod →
      M.view s = .error ⟨.valueError, .viewNumel⟩) ∧
    (∀ (M : Matrix) (s : List Nat) (n b : Nat), M.transposed = false →
      ¬ (s.length < 1 ∨ M.size.length < 1) → atNeg s 0 = atNeg M.size 0 →
      s.prod = M.size.prod →
      validChecks s M.data M.row_indices M.column_indices M.offsets n b →
      M.view s = .ok ⟨s, M.data, M.row_indices, M.column_indices,
        M.offsets, false⟩) := by
  have hcontF : ∀ M : Matrix, M.transposed = true → M.is_contiguous = false := by
    intro M h; unfold Matrix.is_contiguous; rw [h]; rfl
  have hcontT : ∀ M : Matrix, M.transposed = false → M.is_contiguous = true := by
    intro M h; unfold Matrix.is_contiguous; rw [h]; rfl
  refine ⟨?_, ?_, ?_, ?_⟩
  · intro M s h
    unfold Matrix.view
    rw [if_pos (hcontF M h)]
  · intro M s h hlen hne
    unfold Matrix.view
    rw [hcontT M h, if_neg (by simp), if_neg hlen, if_pos hne]
  · intro M s h hlen heq hprod
    unfold Matrix.view
    rw [hcontT M h, if_neg (by simp), if_neg hlen, if_neg (by simp [heq]),
      if_pos hprod]
  · intro M s n b h hlen heq hprod hc
    unfold Matrix.view
    rw [hcontT M h, if_neg (by simp), if_neg hlen, if_neg (by simp [heq]),
      if_neg (by simp [hprod]), init_ok_of hc]

/-- C5 witness: the four view behaviors on concrete matrices. -/
theorem C5_witness :
    (exSqMT.transposed = true ∧
      exSqMT.view [1, 4] = .error ⟨.assertionError, .viewNotContiguous⟩) ∧
    exSqM.view [4, 3] = .error ⟨.valueError, .viewCompressedDim⟩ ∧
    exSqM.view [4, 2] = .error ⟨.valueError, .viewNumel⟩ ∧
    exSqM.view [1, 2, 2] = .ok ⟨[1, 2, 2], exData, exRow, exCol, exOff, false⟩ := by
  have hc : validChecks [1, 2, 2] exData exRow exCol exOff 1 1 :=
    ⟨rfl, by decide, by decide, by decide, rfl, rfl, rfl, rfl, rfl, rfl, rfl, rfl⟩
  exact ⟨⟨rfl, C5_view.1 exSqMT [1, 4] rfl⟩,
    C5_view.2.1 exSqM [4, 3] rfl (by decide) (by decide),
    C5_view.2.2.1 exSqM [4, 2] rfl (by decide) (by decide) (by decide),
    C5_view.2.2.2 exSqM [1, 2, 2] 1 1 rfl (by decide) (by decide) (by decide) hc⟩

/-- C5 counterexample: on the valid contiguous 8x8 block-size-4 matrix the
view to (4, 2, 8) keeps the trailing dimension and the element count, yet
view raises the divisibility ValueError out of re-validation instead of
returning a Matrix. -/
theorem C5_counterexample :
    exViewM.transposed = false ∧
    atNeg [4, 2, 8] 0 = atNeg exViewM.size 0 ∧
    ([4, 2, 8] : List Nat).prod = exViewM.size.prod ∧
    exViewM.view [4, 2, 8] = .error ⟨.valueError, .divisibility⟩ :=
  ⟨rfl, rfl, rfl, rfl⟩

/-- C6: the validator rejects every input whose block-element count exceeds
the matrix capacity; in particular the spec test vector (shape (128,128),
block size 128, 2 supplied blocks) is rejected with the capacity
ValueError; and no input whose block-element count is within capacity is
ever rejected by the capacity check. -/
theorem C6_capacity :
    (∀ (shape : List Nat) (d r c o : Tensor) (d' : Tensor),
      shape.prod < d.numel → _validate_matrix shape d r c o ≠ .ok d') ∧
    _validate_matrix [128, 128] capData capRow capCol capOff =
      .error ⟨.valueError, .capacity⟩ ∧
    (∀ (shape : List Nat) (d r c o : Tensor), d.numel ≤ shape.prod →
      _validate_matrix shape d r c o ≠ .error ⟨.valueError, .capacity⟩) := by
  refine ⟨?_, rfl, ?_⟩
  · intro shape d r c o d' hlt hok
    exact validate_ok_capacity hok hlt
  · intro shape d r c o hle herr
    exact absurd (validate_capacity_err herr) (Nat.not_lt.mpr hle)

/-- C6 witness: the universal parts applied at the capacity test vector and
at a valid in-capacity input. -/
theorem C6_witness :
    (([128, 128] : List Nat).prod < capData.numel ∧
      _validate_matrix [128, 128] capData capRow capCol capOff ≠ .ok capData) ∧
    (exData.numel ≤ ([2, 2] : List Nat).prod ∧
      _validate_matrix [2, 2] exData exRow exCol exOff ≠
        .error ⟨.valueError, .capacity⟩) :=
  ⟨⟨by decide, C6_capacity.1 [128, 128] capData capRow capCol capOff capData
      (by decide)⟩,
    ⟨by decide, C6_capacity.2.2 [2, 2] exData exRow exCol exOff (by decide)⟩⟩

/-- C7 (amended): each of the six rejected invariants raises a ValueError
with its own distinct message (modelled by the distinct tags), including
mixed devices and wrong element types: the validator distinguishes the
cases by message, not by exception kind. -/
theorem C7_validator_messages :
    _validate_matrix [6, 6] e7aData exRow exCol exOff =
      .error ⟨.valueError, .squareBlocks⟩ ∧
    _validate_matrix [3, 3] e7bData exRow exCol exOff =
      .error ⟨.valueError, .divisibility⟩ ∧
    _validate_matrix [2, 2] e7bData e7cRow exCol exOff =
      .error ⟨.valueError, .rowIndicesCount⟩ ∧
    _validate_matrix [2, 2] e7bData e7Row1 exCol e7dOff =
      .error ⟨.valueError, .offsetsCount⟩ ∧
    _validate_matrix [2, 2] e7bData e7eRowCuda exCol e7Off2 =
      .error ⟨.valueError, .deviceMismatch⟩ ∧
    _validate_matrix [2, 2] e7bData e7fRow32 exCol e7Off2 =
      .error ⟨.valueError, .rowIndicesDtype⟩ ∧
    ([CheckTag.squareBlocks, CheckTag.divisibility, CheckTag.rowIndicesCount,
      CheckTag.offsetsCount, CheckTag.deviceMismatch,
      CheckTag.rowIndicesDtype] : List CheckTag).Nodup :=
  ⟨rfl, rfl, rfl, rfl, rfl, rfl, by decide⟩

/-- C7 counterexample: a mixed-device input and a wrong-element-type input
raise errors of the same Python exception kind (ValueError); the wrong
element type in particular does not raise a TypeError, so the listed
invariants are not distinguished by exception kind. -/
theorem C7_counterexample :
    _validate_matrix [2, 2] e7bData e7eRowCuda exCol e7Off2 =
      .error ⟨.valueError, .deviceMismatch⟩ ∧
    _validate_matrix [2, 2] e7bData e7fRow32 exCol e7Off2 =
      .error ⟨.valueError, .rowIndicesDtype⟩ ∧
    ExcKind.valueError ≠ ExcKind.typeError := ⟨rfl, rfl, by decide⟩

/-- C8: on every accepted input the constructor stores the row-index,
column-index and offsets tensors exactly as passed, and the only change to
the data buffer is shape normalization to rank-3 (same storage id, dtype
and device, same element count; a rank-1 input of n elements becomes n
blocks of size 1x1). -/
theorem C8_frame :
    ∀ (shape : List Nat) (d r c o : Tensor) (M : Matrix),
      Matrix.init shape d r c o true = .ok M →
      M.row_indices = r ∧ M.column_indices = c ∧ M.offsets = o ∧
      M.size = shape ∧ M.data.uid = d.uid ∧ M.data.dtype = d.dtype ∧
      M.data.device = d.device ∧ M.data.dim = 3 ∧
      (∃ nb bb, M.data.shape = [nb, bb, bb]) ∧ M.data.numel = d.numel ∧
      (d.dim = 1 → M.data.shape = [d.numel, 1, 1]) := by
  intro shape d r c o M h
  obtain ⟨hsz, hr, hcn, ho, ht, hval, hnv⟩ := init_ok_elim h
  obtain ⟨b, rest, hrev, hd', hf⟩ := validate_ok_elim (hval rfl)
  have hb : 0 < b := by
    have hp := hf.bpos
    rwa [blockSize_flatten3] at hp
  obtain ⟨hfs, hfn⟩ := flatten3_numel_of_rev hrev hb
  refine ⟨hr, hcn, ho, hsz, ?_, ?_, ?_, ?_, ⟨rest.prod, b, ?_⟩, ?_, ?_⟩
  · rw [hd', flatten3_uid, normalize1_uid]
  · rw [hd', flatten3_dtype, normalize1_dtype]
  · rw [hd', flatten3_device, normalize1_device]
  · rw [hd']; exact flatten3_dim _ _
  · rw [hd']; exact hfs
  · rw [hd', hfn, normalize1_numel]
  · intro h1
    have hns : (normalize1 d).shape = [d.numel, 1, 1] := by
      unfold normalize1
      rw [if_pos h1, Tensor.withShape_shape]
    rw [hns] at hrev
    have hrev2 : ([1, 1, d.numel] : List Nat) = b :: b :: rest := by
      rw [← hrev]; rfl
    injection hrev2 with hb1 hrest
    injection hrest with hb2 hrest2
    rw [hd', hfs, ← hb1, ← hrest2]
    simp

/-- C8 witness: construction from a rank-1 data buffer of 4 elements gives
4 blocks of size 1x1 with untouched index and offset buffers. -/
theorem C8_witness :
    Matrix.init [2, 2] c8data c8row c8col c8off true =
      .ok ⟨[2, 2], c8norm, c8row, c8col, c8off, false⟩ ∧
    (⟨[2, 2], c8norm, c8row, c8col, c8off, false⟩ : Matrix).row_indices = c8row ∧
    (⟨[2, 2], c8norm, c8row, c8col, c8off, false⟩ : Matrix).data.uid = c8data.uid ∧
    (c8data.dim = 1 →
      (⟨[2, 2], c8norm, c8row, c8col, c8off, false⟩ : Matrix).data.shape =
        [c8data.numel, 1, 1]) :=
  ⟨rfl, (C8_frame [2, 2] c8data c8row c8col c8off _ rfl).1,
    (C8_frame [2, 2] c8data c8row c8col c8off _ rfl).2.2.2.2.1,
    (C8_frame [2, 2] c8data c8row c8col c8off _ rfl).2.2.2.2.2.2.2.2.2.2⟩

/-- C9 (amended): the constructor always sets the transposed flag to False,
with or without validation, so view and clone always return contiguous
matrices; t flips the flag of its input; and grad preserves the flag of its
source — hence a Matrix with transposed = True arises only out of t, called
directly or re-applied inside grad on a transposed source. -/
theorem C9_contiguity :
    (∀ (size : List Nat) (d r c o : Tensor) (v : Bool) (M : Matrix),
      Matrix.init size d r c o v = .ok M → M.transposed = false) ∧
    (∀ (M : Matrix) (s : List Nat) (M2 : Matrix),
      M.view s = .ok M2 → M2.transposed = false) ∧
    (∀ (M : Matrix) (u1 u2 u3 u4 : Nat) (M2 : Matrix),
      M.clone u1 u2 u3 u4 = .ok M2 → M2.transposed = false) ∧
    (∀ (M M2 : Matrix), M.t = .ok M2 → M2.transposed = !M.transposed) ∧
    (∀ (M M2 : Matrix), M.grad = .ok M2 → M2.transposed = M.transposed) := by
  refine ⟨?_, ?_, ?_, ?_, ?_⟩
  · intro size d r c o v M h
    exact init_transposed h
  · intro M s M2 h
    unfold Matrix.view at h
    by_cases k1 : M.is_contiguous = false
    · rw [if_pos k1] at h; cases h
    rw [if_neg k1] at h
    by_cases k2 : s.length < 1 ∨ M.size.length < 1
    · rw [if_pos k2] at h; cases h
    rw [if_neg k2] at h
    by_cases k3 : atNeg s 0 ≠ atNeg M.size 0
    · rw [if_pos k3] at h; cases h
    rw [if_neg k3] at h
    by_cases k4 : s.prod ≠ M.size.prod
    · rw [if_pos k4] at h; cases h
    rw [if_neg k4] at h
    exact init_transposed h
  · intro M u1 u2 u3 u4 M2 h
    unfold Matrix.clone at h
    exact init_transposed h
  · intro M M2 h
    exact t_transposed h
  · intro M M2 h
    unfold Matrix.grad at h
    cases hg : M.data.grad with
    | none => rw [hg] at h; cases h
    | some g =>
      rw [hg] at h
      replace h : (match Matrix.init (if M.is_contiguous then M.size
          else M.size.reverse) g M.row_indices M.column_indices M.offsets true with
        | .error e => (.error e : Except PyErr Matrix)
        | .ok out => if M.is_contiguous then .ok out else out.t) = .ok M2 := h
      cases hi : Matrix.init (if M.is_contiguous then M.size else M.size.reverse)
          g M.row_indices M.column_indices M.offsets true with
      | error e => rw [hi] at h; cases h
      | ok out =>
        rw [hi] at h
        replace h : (if M.is_contiguous then (.ok out : Except PyErr Matrix)
            else out.t) = .ok M2 := h
        cases hmt : M.transposed with
        | false =>
          have hcont : M.is_contiguous = true := by
            unfold Matrix.is_contiguous; rw [hmt]; rfl
          rw [hcont, if_pos rfl] at h
          cases h
          exact init_transposed hi
        | true =>
          have hcont : M.is_contiguous = false := by
            unfold Matrix.is_contiguous; rw [hmt]; rfl
          rw [hcont, if_neg (by simp)] at h
          rw [t_transposed h, init_transposed hi]
          rfl

/-- C9 witness: the five behaviors evaluated on concrete matrices. -/
theorem C9_witness :
    (Matrix.init [2, 2] exData exRow exCol exOff true = .ok exSqM ∧
      exSqM.transposed = false) ∧
    (exViewM.view [1, 8, 8] =
        .ok ⟨[1, 8, 8], vData, vRow, vCol, vOff, false⟩ ∧
      (⟨[1, 8, 8], vData, vRow, vCol, vOff, false⟩ : Matrix).transposed = false) ∧
    (exSqM.t = .ok exSqMT ∧ exSqMT.transposed = !exSqM.transposed) ∧
    (exGradM.grad = .ok ⟨[2, 2], gradT, exRow, exCol, exOff, false⟩ ∧
      (⟨[2, 2], gradT, exRow, exCol, exOff, false⟩ : Matrix).transposed =
        exGradM.transposed) :=
  ⟨⟨rfl, C9_contiguity.1 [2, 2] exData exRow exCol exOff true exSqM rfl⟩,
    ⟨rfl, C9_contiguity.2.1 exViewM [1, 8, 8] _ rfl⟩,
    ⟨rfl, C9_contiguity.2.2.2.1 exSqM exSqMT rfl⟩,
    ⟨rfl, C9_contiguity.2.2.2.2 exGradM _ rfl⟩⟩

/-- C9 counterexample: the grad accessor of a transposed source returns a
Matrix whose transposed flag is True, so t is not the only operation whose
result carries transposed = True. -/
theorem C9_counterexample :
    (exGradM.t.bind Matrix.grad).map Matrix.transposed = .ok true := rfl

/-- C10: for every validated Matrix, nnz is the total element count of the
block buffer — the number of nonzero blocks times the square of the block
side — not the number of blocks, and blocking is the block side, so
nnz = row_indices.numel * blocking^2. -/
theorem C10_nnz :
    ∀ (shape : List Nat) (d r c o : Tensor) (M : Matrix),
      Matrix.init shape d r c o true = .ok M →
      M.nnz = M.data.numel ∧
      (∃ nblocks, M.data.shape = [nblocks, M.blocking, M.blocking] ∧
        M.nnz = nblocks * (M.blocking * M.blocking) ∧
        M.row_indices.numel = nblocks) ∧
      M.nnz = M.row_indices.numel * (M.blocking * M.blocking) := by
  intro shape d r c o M h
  obtain ⟨hsz, hr, hcn, ho, ht, hval, hnv⟩ := init_ok_elim h
  obtain ⟨b, rest, hrev, hd', hf⟩ := validate_ok_elim (hval rfl)
  have hb : 0 < b := by
    have hp := hf.bpos
    rwa [blockSize_flatten3] at hp
  obtain ⟨hfs, hfn⟩ := flatten3_numel_of_rev hrev hb
  have hshape : M.data.shape = [rest.prod, b, b] := by rw [hd']; exact hfs
  have hblock : M.blocking = b := by
    unfold Matrix.blocking
    rw [hshape]
    rfl
  have hnnz : M.nnz = rest.prod * (b * (b * 1)) := by
    unfold Matrix.nnz Tensor.numel
    rw [hshape]
    rfl
  have hrn : M.row_indices.numel = rest.prod := by
    have hrc := hf.rcount
    rw [hfs] at hrc
    rw [hr, hrc]
    rfl
  refine ⟨rfl, ⟨rest.prod, by rw [hblock]; exact hshape, ?_, hrn⟩, ?_⟩
  · rw [hnnz, hblock]; ring
  · rw [hnnz, hrn, hblock]; ring

/-- C10 witness: nnz and blocking evaluated on the concrete 8x8 matrix with
block size 4 (one block, nnz = 16). -/
theorem C10_witness :
    Matrix.init [8, 8] vData vRow vCol vOff true = .ok exViewM ∧
    exViewM.nnz = exViewM.data.numel ∧
    exViewM.nnz = exViewM.row_indices.numel * (exViewM.blocking * exViewM.blocking) :=
  ⟨rfl, (C10_nnz [8, 8] vData vRow vCol vOff exViewM rfl).1,
    (C10_nnz [8, 8] vData vRow vCol vOff exViewM rfl).2.2⟩

end STK



